import Mathlib

/-!
Shallow embedding of `src/ccfxconstants.cpp` (the constants module of
ccfinderx-osx) and proofs of the specified properties.

The translation unit defines two compile-time constants:
a four-element version array `APPVERSION` of `boost::int32_t`, and a
platform-name string `PLATFORM_NAME` selected by a preprocessor
`#if defined OS_WIN32 / #elif ... / #else #error` chain over the
build-configuration macros `OS_WIN32`, `OS_UBUNTU`, `OS_LINUX`, `OS_MACOSX`.

We model a build configuration as the tuple of those four macro-defined
flags, and the preprocessor chain as a function from a configuration to
`Option String`: `some label` when the translation unit compiles and
defines `PLATFORM_NAME = label`, and `none` for the `#error` branch, in
which the build fails and no platform label exists.
-/

/-- Embeds `const boost::array<boost::int32_t, 4> APPVERSION = { 10, 2, 7, 3 };`
(src/ccfxconstants.cpp line 6). The `boost::int32_t` components are modelled
as mathematical integers; the 32-bit range constraint is stated separately
via `int32Min` and `int32Max`. -/
def APPVERSION : List Int := [10, 2, 7, 3]

/-- Smallest value representable as a signed 32-bit integer (`boost::int32_t`). -/
def int32Min : Int := -(2 ^ 31)

/-- Largest value representable as a signed 32-bit integer (`boost::int32_t`). -/
def int32Max : Int := 2 ^ 31 - 1

/-- A build configuration: which of the four recognized platform macros are
defined when src/ccfxconstants.cpp is compiled. -/
structure BuildConfig where
  os_win32 : Bool
  os_ubuntu : Bool
  os_linux : Bool
  os_macosx : Bool
deriving DecidableEq, Repr

/-- Embeds the preprocessor chain of src/ccfxconstants.cpp lines 8-18:

`#if defined OS_WIN32` gives "Windows XP x86", `#elif defined OS_UBUNTU`
gives "Ubuntu i386", `#elif defined OS_LINUX` gives "Linux",
`#elif defined OS_MACOSX` gives "MacOSX x64", and the `#else #error`
branch fails the build, modelled as `none`. -/
def PLATFORM_NAME (cfg : BuildConfig) : Option String :=
  if cfg.os_win32 then some "Windows XP x86"
  else if cfg.os_ubuntu then some "Ubuntu i386"
  else if cfg.os_linux then some "Linux"
  else if cfg.os_macosx then some "MacOSX x64"
  else none

/-- The fixed set of supported platform labels named by the spec. -/
def supportedLabels : List String :=
  ["Windows XP x86", "Ubuntu i386", "Linux", "MacOSX x64"]

/-- Modelled from the spec: `GetApplicationVersion()` is the accessor the
spec gives for `APPVERSION`; it is not in src/ccfxconstants.cpp, which only
defines the constant. The `call` index models distinct calls within one
process; the accessor ignores it, since the constant is immutable. -/
def GetApplicationVersion (_call : Nat) : List Int := APPVERSION

/-- Modelled from the spec: `GetPlatformName()` is the accessor the spec
gives for `PLATFORM_NAME`; it is not in src/ccfxconstants.cpp, which only
defines the constant. The `call` index models distinct calls within one
process; the accessor ignores it, since the constant is immutable. -/
def GetPlatformName (cfg : BuildConfig) (_call : Nat) : Option String :=
  PLATFORM_NAME cfg

/-- Modelled from the spec: a pure constant accessor leaves every other
piece of program state unchanged. The accessor is paired with an arbitrary
ambient program state `s`, which it returns untouched alongside the value. -/
def GetApplicationVersionWithState {S : Type} (s : S) : List Int × S :=
  (APPVERSION, s)

/-- Modelled from the spec: state-passing form of `GetPlatformName`,
returning the ambient program state untouched alongside the value. -/
def GetPlatformNameWithState {S : Type} (cfg : BuildConfig) (s : S) :
    Option String × S :=
  (PLATFORM_NAME cfg, s)

/-- C1: `GetApplicationVersion` (the constant `APPVERSION`) returns exactly
4 integers, and for this snapshot its value is exactly the tuple
(10, 2, 7, 3), in that order. -/
theorem appversion_is_10_2_7_3 :
    APPVERSION.length = 4 ∧ APPVERSION = [10, 2, 7, 3] :=
  ⟨rfl, rfl⟩

/-- C2: for each supported build configuration flag, `PLATFORM_NAME` is a
non-empty string from the fixed set of supported labels, and the label
deterministically matches the flag used to build: `OS_WIN32` yields
"Windows XP x86", `OS_UBUNTU` yields "Ubuntu i386", `OS_LINUX` yields
"Linux", and `OS_MACOSX` yields "MacOSX x64". -/
theorem platform_name_matches_flag :
    (PLATFORM_NAME ⟨true, false, false, false⟩ = some "Windows XP x86" ∧
      PLATFORM_NAME ⟨false, true, false, false⟩ = some "Ubuntu i386" ∧
      PLATFORM_NAME ⟨false, false, true, false⟩ = some "Linux" ∧
      PLATFORM_NAME ⟨false, false, false, true⟩ = some "MacOSX x64") ∧
    ∀ s ∈ supportedLabels, s ≠ "" := by
  refine ⟨⟨rfl, rfl, rfl, rfl⟩, ?_⟩
  decide

/-- C3: if none of the recognized platform macros is defined, the `#else`
branch hits `#error`: the build fails and no platform label is produced,
modelled by `PLATFORM_NAME` returning `none` on the all-false
configuration and on no other occasion producing a fallback label outside
the supported set. -/
theorem platform_unrecognized_fails_build :
    PLATFORM_NAME ⟨false, false, false, false⟩ = none ∧
    ∀ w u l m : Bool, ∀ s,
      PLATFORM_NAME ⟨w, u, l, m⟩ = some s → s ∈ supportedLabels := by
  refine ⟨rfl, ?_⟩
  decide

/-- C4: the platform label is chosen by a total, mutually exclusive case
analysis: whenever at least one recognized platform flag is set, exactly
one label from the supported set is produced — never zero, never more
than one. -/
theorem platform_selection_total_unique
    (w u l m : Bool) (h : w = true ∨ u = true ∨ l = true ∨ m = true) :
    ∃ s, PLATFORM_NAME ⟨w, u, l, m⟩ = some s ∧ s ∈ supportedLabels ∧
      ∀ t, PLATFORM_NAME ⟨w, u, l, m⟩ = some t → t = s := by
  cases w <;> cases u <;> cases l <;> cases m <;>
    simp_all [PLATFORM_NAME, supportedLabels]

/-- Witness for C4: with only `OS_MACOSX` defined, a unique supported
label exists. -/
theorem platform_selection_total_unique_witness :
    ∃ s, PLATFORM_NAME ⟨false, false, false, true⟩ = some s ∧
      s ∈ supportedLabels ∧
      ∀ t, PLATFORM_NAME ⟨false, false, false, true⟩ = some t → t = s :=
  platform_selection_total_unique false false false true (Or.inr (Or.inr (Or.inr rfl)))

/-- C5: the application version sequence always has length exactly 4,
every element is non-negative, and it is never mutated after program
start: a read at any later point (any call index) still yields the
constant. -/
theorem appversion_invariant :
    APPVERSION.length = 4 ∧ (∀ x ∈ APPVERSION, 0 ≤ x) ∧
    ∀ t : Nat, GetApplicationVersion t = APPVERSION := by
  refine ⟨rfl, ?_, fun _ => rfl⟩
  decide

/-- C6: both accessors are idempotent: any two calls within the same
process (any two call indices) return equal values. -/
theorem accessors_idempotent :
    ∀ (cfg : BuildConfig) (i j : Nat),
      GetApplicationVersion i = GetApplicationVersion j ∧
      GetPlatformName cfg i = GetPlatformName cfg j :=
  fun _ _ _ => ⟨rfl, rfl⟩

/-- C7: both accessors are pure constant accessors: a call leaves every
other piece of program state unchanged (the ambient state `s` is returned
untouched), and has no failure mode — once the translation unit compiled
(the build produced a label), every call yields that value. -/
theorem accessors_pure_no_failure {S : Type} (s : S) (cfg : BuildConfig)
    (lbl : String) (hcompiled : PLATFORM_NAME cfg = some lbl) :
    (GetApplicationVersionWithState s).2 = s ∧
    (GetApplicationVersionWithState s).1 = APPVERSION ∧
    (GetPlatformNameWithState cfg s).2 = s ∧
    (GetPlatformNameWithState cfg s).1 = some lbl :=
  ⟨rfl, rfl, rfl, hcompiled⟩

/-- Witness for C7: at a concrete ambient state and the Linux-only
configuration, the accessors return the constants and leave the state
unchanged. -/
theorem accessors_pure_no_failure_witness :
    (GetApplicationVersionWithState (37 : Nat)).2 = 37 ∧
    (GetApplicationVersionWithState (37 : Nat)).1 = APPVERSION ∧
    (GetPlatformNameWithState ⟨false, false, true, false⟩ (37 : Nat)).2 = 37 ∧
    (GetPlatformNameWithState ⟨false, false, true, false⟩ (37 : Nat)).1 = some "Linux" :=
  accessors_pure_no_failure 37 ⟨false, false, true, false⟩ "Linux" rfl

/-- C8: when several recognized flags are defined at once, the
`#if`/`#elif` chain selects by first-match priority in the order
`OS_WIN32`, `OS_UBUNTU`, `OS_LINUX`, `OS_MACOSX`, and the build succeeds
(an over-specified configuration is not rejected). -/
theorem platform_first_match_priority :
    ∀ u l m : Bool,
      PLATFORM_NAME ⟨true, u, l, m⟩ = some "Windows XP x86" ∧
      PLATFORM_NAME ⟨false, true, l, m⟩ = some "Ubuntu i386" ∧
      PLATFORM_NAME ⟨false, false, true, m⟩ = some "Linux" ∧
      PLATFORM_NAME ⟨false, false, false, true⟩ = some "MacOSX x64" := by
  decide

/-- C10: each component of `APPVERSION` is stored as a signed 32-bit
integer, so it lies within `int32Min` to `int32Max`, and the snapshot
values 10, 2, 7, 3 are exactly representable in that width. -/
theorem appversion_components_int32 :
    (∀ x ∈ APPVERSION, int32Min ≤ x ∧ x ≤ int32Max) ∧
    APPVERSION = [10, 2, 7, 3] := by
  refine ⟨?_, rfl⟩
  decide
